import Mathlib

/-!
# Refunds service — verification of the refund rules engine

Shallow embedding of the core of the `Refunds_app` repository:

* `evaluateRefundRules` and its predicate blocks (`models/refundStatModel.js`,
  the evaluator section),
* `buildRefundContext` (same file): the context-building pipeline, with every
  external I/O outcome passed in explicitly through an `Ext` record,
* `publishNewVersion` / the ruleset store (`models/refundRulesModel.js`),
* `pushAttempt` (ring buffer, `RefundStatSchema.methods.pushAttempt`) and the
  controller's `$push`/`$slice: -25` update (`controllers/refundsController.js`).

JavaScript numbers are modelled as `ℚ` (all values the code manipulates are
finite decimals; `Number.isFinite` guards become trivially true under this
model and nullable number fields become `Option ℚ`).  JavaScript `null` versus
a present value is `Option`.  JS truthiness on the few places the code relies
on it is modelled explicitly (`truthyStr`, `truthyNat`, `jsAbsNum`, …).
-/

namespace Refunds

/-- Ruleset payload, mirroring `RefundRulesPayloadSchema` plus the extra
fields the evaluator reads (`cashbackSpentThreshold`,
`maxLifetimeRefundCount`).  A field the evaluator guards with
`typeof x === "number"` (or `Array.isArray`) is an `Option`; `none` stands
for absent/undefined/non-numeric. `blockIfAlreadyRefunded` is used only for
truthiness, hence `Bool`. -/
structure Rules where
  mode : String := "observe"
  cashbackSpentThreshold : Option ℚ := none
  maxLifetimeRefundCount : Option ℚ := none
  refundWindowDays : Option ℚ := none
  blockIfAlreadyRefunded : Bool := false
  maxRefundPercent : Option ℚ := none
  maxRefundsPerDay : Option ℚ := none
  allowPaymentMethods : Option (List String) := none
  requireSupervisorAbovePercent : Option ℚ := none
  bypassPercentCapForPartials : Option Bool := none
  deriving DecidableEq

/-- The acting user slice of the context (`ctx.user`). -/
structure RuleUser where
  id : Option String := none
  roles : List String := []
  deriving DecidableEq

/-- The resolved-order slice of the context (`ctx.order`), as assembled by
`buildRefundContext`. -/
structure COrder where
  id : ℕ := 0
  customerId : Option ℕ := none
  total : ℚ := 0
  paymentMethod : String := ""
  deriving DecidableEq

/-- `ctx.refund`. -/
structure RefundReq where
  requestedAmount : Option ℚ := none
  requestedPercent : Option ℚ := none
  deriving DecidableEq

/-- `ctx.meta`: the fact bundle gathered by the context builder.
`totalCredits` is an `Option ℚ` because the JSON value is `null | number`
(the builder in fact always stores a number there, see `jsAbsNum`). -/
structure Meta where
  attemptsToday : ℚ := 0
  targetOrderAlreadyRefunded : Bool := false
  deliveredAt : Option ℤ := none
  daysSinceDelivery : Option ℚ := none
  lifetimeRefundCount : Option ℚ := none
  customerKey : Option String := none
  totalSpentCredits : Option ℚ := none
  totalSpentCreditsRaw : Option ℚ := none
  totalCredits : Option ℚ := none
  deriving DecidableEq

/-- `ctx.request`. -/
structure RequestInfo where
  lineItems : List ℚ := []
  deriving DecidableEq

/-- The full `req.ruleContext` object handed to the evaluator. -/
structure DecisionContext where
  tenantId : String := ""
  ruleSetId : Option String := none
  rulesVersion : ℚ := 0
  rules : Rules := {}
  user : RuleUser := {}
  order : Option COrder := none
  refund : RefundReq := {}
  meta : Meta := {}
  request : RequestInfo := {}
  now : ℤ := 0
  deriving DecidableEq

/-- Decision outcomes of the evaluator. -/
inductive Outcome where
  | ALLOW
  | DENY
  | REQUIRE_APPROVAL
  deriving DecidableEq

/-- The `reason` strings produced by the evaluator, as a datatype carrying
the same information as the template strings of the source (one constructor
per template). -/
inductive Reason where
  | allowedByDefault
  | cashbackUtilised
  | lifetimeExceeded (projected maxCount : ℚ)
  | windowExceeded (days window : ℚ)
  | alreadyRefunded
  | percentExceeded (requested maxPct : ℚ)
  | dailyLimit (attempts limit : ℚ)
  | paymentMethodNotAllowed (pm : String)
  | supervisorRequired (threshold : ℚ)
  deriving DecidableEq

/-- The `limits` object accumulated by the evaluator (only the fields the
source ever assigns; an unassigned field is `none`). -/
structure Limits where
  cashbackSpentThreshold : Option ℚ := none
  observedCashbackSpentCreditsRaw : Option ℚ := none
  observedCashbackSpentCredits : Option ℚ := none
  maxLifetimeRefundCount : Option ℚ := none
  refundWindowDays : Option ℚ := none
  maxRefundPercent : Option ℚ := none
  deriving DecidableEq

/-- The mutable state threaded through the evaluator's predicate blocks:
`outcome`, `reason`, `matched`, `limits`. -/
structure EvalState where
  outcome : Outcome := .ALLOW
  reason : Reason := .allowedByDefault
  matched : List String := []
  limits : Limits := {}
  deriving DecidableEq

/-- The evaluator's return value. -/
structure Decision where
  outcome : Outcome
  reason : Reason
  limits : Limits
  matched : List String
  rulesVersion : ℚ
  ruleSetId : Option String
  deriving DecidableEq

/-- Initial evaluator state: `outcome = "ALLOW"`, `reason = "Allowed by
default"`, empty `matched` and `limits`. -/
def initState : EvalState := {}

/-- Block 0 of `evaluateRefundRules`: cashback deny rule.  Fires when
`meta.totalSpentCreditsRaw` is a (finite) number and its absolute value is at
least the threshold (`rules.cashbackSpentThreshold`, defaulting to 39900). -/
def stepCashback (ctx : DecisionContext) (s : EvalState) : EvalState :=
  if s.outcome ≠ .DENY then
    match ctx.meta.totalSpentCreditsRaw with
    | some raw =>
      let threshold : ℚ :=
        match ctx.rules.cashbackSpentThreshold with
        | some t => t
        | none => 39900
      let s1 := { s with limits :=
        { s.limits with
            cashbackSpentThreshold := some threshold
            observedCashbackSpentCreditsRaw := some raw
            observedCashbackSpentCredits := ctx.meta.totalSpentCredits } }
      if |raw| ≥ threshold then
        { s1 with
            matched := s1.matched ++ ["cashbackSpentThreshold"]
            outcome := .DENY
            reason := .cashbackUtilised }
      else s1
    | none => s
  else s

/-- Block A of `evaluateRefundRules`: lifetime refund count cap. -/
def stepLifetime (ctx : DecisionContext) (s : EvalState) : EvalState :=
  if s.outcome ≠ .DENY then
    match ctx.rules.maxLifetimeRefundCount, ctx.meta.lifetimeRefundCount with
    | some maxC, some life =>
      if maxC ≥ 0 then
        let projected := life + 1
        let s1 := { s with limits := { s.limits with maxLifetimeRefundCount := some maxC } }
        if projected > maxC then
          { s1 with
              matched := s1.matched ++ ["maxLifetimeRefundCount"]
              outcome := .DENY
              reason := .lifetimeExceeded projected maxC }
        else s1
      else s
    | _, _ => s
  else s

/-- Block B of `evaluateRefundRules`: refund window after delivery. -/
def stepWindow (ctx : DecisionContext) (s : EvalState) : EvalState :=
  if s.outcome ≠ .DENY then
    match ctx.rules.refundWindowDays with
    | some w =>
      if w ≥ 0 then
        match ctx.meta.daysSinceDelivery with
        | some d =>
          let s1 := { s with limits := { s.limits with refundWindowDays := some w } }
          if d > w then
            { s1 with
                matched := s1.matched ++ ["refundWindowDays"]
                outcome := .DENY
                reason := .windowExceeded d w }
          else s1
        | none => s
      else s
    | none => s
  else s

/-- Block 1 of `evaluateRefundRules`: already-refunded block.  NOTE: unlike
every other DENY-capable block, the source has no `outcome !== "DENY"` guard
here — the block runs unconditionally. -/
def stepAlreadyRefunded (ctx : DecisionContext) (s : EvalState) : EvalState :=
  if ctx.rules.blockIfAlreadyRefunded && ctx.meta.targetOrderAlreadyRefunded then
    { s with
        matched := s.matched ++ ["blockIfAlreadyRefunded"]
        outcome := .DENY
        reason := .alreadyRefunded }
  else s

/-- Block 2 of `evaluateRefundRules`: percent cap, skipped entirely for a
partial refund (non-empty `request.lineItems`) when
`bypassPercentCapForPartials !== false`. -/
def stepPercentCap (ctx : DecisionContext) (s : EvalState) : EvalState :=
  let isPartial := ctx.request.lineItems.length > 0
  let bypass := ctx.rules.bypassPercentCapForPartials ≠ some false
  if ¬(isPartial ∧ bypass) ∧ s.outcome ≠ .DENY then
    match ctx.refund.requestedPercent, ctx.rules.maxRefundPercent with
    | some p, some m =>
      let s1 := { s with limits := { s.limits with maxRefundPercent := some m } }
      if p > m then
        { s1 with
            matched := s1.matched ++ ["maxRefundPercent"]
            outcome := .DENY
            reason := .percentExceeded p m }
      else s1
    | _, _ => s
  else s

/-- Block 3 of `evaluateRefundRules`: daily attempt cap.  (The source does
not record a `limits` entry in this block.) -/
def stepDaily (ctx : DecisionContext) (s : EvalState) : EvalState :=
  if s.outcome ≠ .DENY then
    match ctx.rules.maxRefundsPerDay with
    | some m =>
      if m ≥ 0 then
        if ctx.meta.attemptsToday ≥ m then
          { s with
              matched := s.matched ++ ["maxRefundsPerDay"]
              outcome := .DENY
              reason := .dailyLimit ctx.meta.attemptsToday m }
        else s
      else s
    | none => s
  else s

/-- ASCII lowercase of a string (model of `String.prototype.toLowerCase` for
the ASCII payment-method / email strings the code handles). -/
def strLower (s : String) : String := String.mk (s.data.map Char.toLower)

/-- Is this character kept by the payment-method normalizer's character class
`[a-z0-9]` (applied after lowercasing)? -/
def isPmAlnum (c : Char) : Bool :=
  (('a' ≤ c && c ≤ 'z') || ('0' ≤ c && c ≤ '9'))

/-- Maximal runs of `[a-z0-9]` characters, accumulator-style. -/
def pmTokensAux : List Char → List Char → List (List Char)
  | [], cur => if cur.isEmpty then [] else [cur.reverse]
  | c :: cs, cur =>
    if isPmAlnum c then pmTokensAux cs (c :: cur)
    else if cur.isEmpty then pmTokensAux cs []
    else cur.reverse :: pmTokensAux cs []

/-- `normalizePm` of the source: lowercase, collapse every run of
non-alphanumerics to a single space, trim.  Equivalently: the maximal
alphanumeric runs joined by single spaces. -/
def normalizePm (s : String) : String :=
  String.mk (List.intercalate [' '] (pmTokensAux (s.data.map Char.toLower) []))

/-- Does `needle` occur as a leading segment of `hay`? (helper for the model
of `String.prototype.includes`). -/
def leadingSegment : List Char → List Char → Bool
  | [], _ => true
  | _ :: _, [] => false
  | a :: as, b :: bs => a == b && leadingSegment as bs

/-- Does `needle` occur as a contiguous segment of `hay`?  Model of
`hay.includes(needle)` on strings (character lists). -/
def segmentOf : List Char → List Char → Bool
  | needle, [] => needle.isEmpty
  | needle, b :: bs => leadingSegment needle (b :: bs) || segmentOf needle bs

/-- `a.includes(b)` on strings. -/
def strIncludes (hay needle : String) : Bool := segmentOf needle.data hay.data

/-- Block 4 of `evaluateRefundRules`: payment-method whitelist.  Runs only
when an order was resolved (`order &&`) and the ruleset carries a non-empty
allow-list. -/
def stepPayment (ctx : DecisionContext) (s : EvalState) : EvalState :=
  if s.outcome ≠ .DENY then
    match ctx.order, ctx.rules.allowPaymentMethods with
    | some o, some allow =>
      if allow.length > 0 then
        let pmRaw := o.paymentMethod
        let pm := normalizePm pmRaw
        let allowList := allow.map normalizePm
        let isAllowed := pm ≠ "" &&
          allowList.any (fun a =>
            a = pm || strIncludes pm a || strIncludes a pm)
        if ¬isAllowed then
          { s with
              matched := s.matched ++ ["allowPaymentMethods"]
              outcome := .DENY
              reason := .paymentMethodNotAllowed (strLower pmRaw) }
        else s
      else s
    | _, _ => s
  else s

/-- Block 5 of `evaluateRefundRules`: supervisor requirement.  Pushes its name
onto `matched` whenever the threshold is exceeded (even for a supervisor), and
downgrades the outcome to REQUIRE_APPROVAL only when the actor lacks the
`super_admin` role.  Never runs when the outcome is already DENY. -/
def stepSupervisor (ctx : DecisionContext) (s : EvalState) : EvalState :=
  if s.outcome ≠ .DENY then
    match ctx.refund.requestedPercent, ctx.rules.requireSupervisorAbovePercent with
    | some p, some t =>
      if p > t then
        let hasSupervisor := ctx.user.roles.contains "super_admin"
        let s1 := { s with matched := s.matched ++ ["requireSupervisorAbovePercent"] }
        if ¬hasSupervisor then
          { s1 with outcome := .REQUIRE_APPROVAL, reason := .supervisorRequired t }
        else s1
      else s
    | _, _ => s
  else s

/-! ## Context builder (`buildRefundContext`)

The builder mixes pure computation with external calls (Shopify, Redis/Mongo
via `loadActiveRules`, the RefundStat collection, the Flits loyalty API).
Each call's outcome is passed in through an `Ext` record: `.ok v` is a
successful response (already projected to the data the code reads), `.error ()`
is a rejected promise.  Calls whose rejection the source catches locally get
their documented fallback; calls outside any local `try` propagate to the
function-level `catch`, which answers 500 "Failed to build refund context". -/

/-- One Shopify fulfillment, reduced to the three timestamps (ms since epoch)
that `resolveDeliveredAt` reads; `none` = absent field. -/
structure SFulfillment where
  delivered_at : Option ℤ := none
  updated_at : Option ℤ := none
  created_at : Option ℤ := none
  deriving DecidableEq

/-- The slice of a Shopify customer object the builder reads. -/
structure SCustomer where
  id : ℕ := 0
  email : Option String := none
  deriving DecidableEq

/-- The slice of a Shopify order object the builder reads. -/
structure SOrder where
  id : ℕ := 0
  total_price : ℚ := 0
  customer : Option SCustomer := none
  payment_gateway_names : List String := []
  processing_method : Option String := none
  fulfillments : List SFulfillment := []
  fulfilled_at : Option ℤ := none
  created_at : Option ℤ := none
  deriving DecidableEq

/-- One refund object from `GET /orders/:id/refunds.json`, reduced to its
`transactions` array (`none` = field absent, `some l` = array of length
`l.length`). -/
structure SRefund where
  transactions : Option (List Unit) := none
  deriving DecidableEq

/-- `ref.transactions && ref.transactions.length > 0`. -/
def refundHasTx (r : SRefund) : Bool :=
  match r.transactions with
  | some l => decide (0 < l.length)
  | none => false

/-- The active-ruleset payload returned by `loadActiveRules` (cache or DB):
`{ rules, version, id }`. -/
structure LoadedRules where
  rules : Rules := {}
  version : ℚ := 0
  id : Option String := none
  deriving DecidableEq

/-- Flits `get_credit` response, reduced to the two figures read by the
builder.  `none` stands for a missing or non-finite value (the
`Number.isFinite` guards of the source). -/
structure FlitsData where
  totalSpentCredits : Option ℚ := none
  credits : Option ℚ := none
  deriving DecidableEq

/-- Outcomes of every external interaction `buildRefundContext` performs. -/
structure Ext where
  loadRules : Except Unit LoadedRules := .error ()
  customerSearch : Except Unit (Option ℕ) := .ok none
  orderById : Except Unit (Option SOrder) := .ok none
  latestOrder : Except Unit (Option SOrder) := .ok none
  refundsForTarget : Except Unit (List SRefund) := .ok []
  todayOrders : Except Unit (List (List SRefund)) := .ok []
  statTotalCount : Except Unit (Option ℕ) := .ok none
  flits : Except Unit FlitsData := .error ()
  flitsConfigured : Bool := false
  now : ℤ := 0

/-- `req.body` of a refund/preview request. -/
structure ReqBody where
  phone : Option String := none
  orderId : Option String := none
  amount : Option ℚ := none
  lineItems : Option (List ℚ) := none
  deriving DecidableEq

/-- The request slice the builder reads: resolved tenant (`none` = tenant not
loaded), body, acting user. -/
structure Req where
  tenant : Option String := none
  body : ReqBody := {}
  userId : Option String := none
  userRoles : List String := []
  deriving DecidableEq

/-- JS truthiness of a nullable string (`undefined`/`null`/`""` are falsy). -/
def truthyStr : Option String → Bool
  | none => false
  | some s => s ≠ ""

/-- JS truthiness of a nullable numeric id (`undefined`/`null`/`0` falsy). -/
def truthyNat : Option ℕ → Bool
  | none => false
  | some n => n ≠ 0

/-- JS truthiness of a nullable number. -/
def truthyNum : Option ℚ → Bool
  | none => false
  | some q => q ≠ 0

/-- `order.customer?.id || null` — a falsy (0) id collapses to null. -/
def jsIdOrNull : Option ℕ → Option ℕ
  | some 0 => none
  | x => x

/-- `Math.abs` under JS coercion: `Math.abs(null) = 0` (ToNumber(null) = 0). -/
def jsAbsNum : Option ℚ → ℚ
  | none => 0
  | some x => |x|

/-- HTTP response of a failed build, or the assembled context. -/
inductive BuildResult where
  | errorResp (status : ℕ) (msg : String)
  | ok (ctx : DecisionContext)
  deriving DecidableEq

/-- Order resolution: by `orderId` when given (an axios failure here is not
caught locally → `.error`), else the resolved customer's most recent order;
when the explicit order is found and no customer id is known yet, the
customer id is taken from the order (`order.customer?.id || null`). -/
def resolveOrderRes (body : ReqBody) (ext : Ext) (customerId0 : Option ℕ) :
    Except Unit (Option SOrder × Option ℕ) :=
  if truthyStr body.orderId then
    match ext.orderById with
    | .error e => .error e
    | .ok o =>
      let customerId :=
        match o with
        | some ord =>
          if ¬truthyNat customerId0 then jsIdOrNull (ord.customer.map (fun c => c.id))
          else customerId0
        | none => customerId0
      .ok (o, customerId)
  else if truthyNat customerId0 then
    match ext.latestOrder with
    | .error e => .error e
    | .ok o => .ok (o, customerId0)
  else .ok (none, customerId0)

/-- "Is the target order already refunded?": true iff some refund of the
target order has a non-empty `transactions` array; on lookup failure the
source catches and defaults to `true`; no lookup (no order) leaves `false`. -/
def computeAlreadyRefunded (order : Option SOrder) (ext : Ext) : Bool :=
  match order with
  | some o =>
    if o.id ≠ 0 then
      match ext.refundsForTarget with
      | .ok rs => rs.any refundHasTx
      | .error _ => true
    else false
  | none => false

/-- `Number.MAX_SAFE_INTEGER`. -/
def maxSafeInteger : ℚ := 9007199254740991

/-- "How many refunds has this customer had today?": the number of
transaction-carrying refunds across the customer's orders of the day; the
whole loop is in one `try`, so any failure yields `Number.MAX_SAFE_INTEGER`;
without a resolved customer the count stays 0. -/
def computeAttemptsToday (customerId : Option ℕ) (ext : Ext) : ℚ :=
  if truthyNat customerId then
    match ext.todayOrders with
    | .ok oss => ((oss.map (fun rs => (rs.filter refundHasTx).length)).sum : ℕ)
    | .error _ => maxSafeInteger
  else 0

/-- The stable customer key: `phone:<phone>` when a phone was sent, else
`email:<email lowercased>` when the resolved order carries one. -/
def computeCustomerKey (body : ReqBody) (order : Option SOrder) : Option String :=
  if truthyStr body.phone then some ("phone:" ++ body.phone.getD "")
  else
    match order.bind (fun o => o.customer.bind (fun c => c.email)) with
    | some e => if e ≠ "" then some ("email:" ++ strLower e) else none
    | none => none

/-- `lifetimeRefundCount` from the RefundStat ledger (`stat?.totalCount || 0`);
this `findOne` is not inside a local `try`, so a failure propagates. -/
def computeLifetime (key : Option String) (ext : Ext) : Except Unit ℚ :=
  match key with
  | some _ =>
    match ext.statTotalCount with
    | .error e => .error e
    | .ok st => .ok ((st.getD 0 : ℕ) : ℚ)
  | none => .ok 0

/-- `resolveDeliveredAt(o)`: the max over all fulfillments' delivered/updated/
created timestamps; else `o.fulfilled_at`; else null. -/
def resolveDeliveredAt (order : Option SOrder) : Option ℤ :=
  match order with
  | none => none
  | some o =>
    let cands := o.fulfillments.flatMap
      (fun f => [f.delivered_at, f.updated_at, f.created_at].filterMap id)
    match cands.max? with
    | some m => some m
    | none => o.fulfilled_at

/-- `resolveDeliveredAt(order) || (order?.created_at ...)`. -/
def computeDeliveredAt (order : Option SOrder) : Option ℤ :=
  match resolveDeliveredAt order with
  | some d => some d
  | none => order.bind (fun o => o.created_at)

/-- `Math.floor((now - deliveredTs) / 86_400_000)` when a delivery timestamp
was resolved. -/
def computeDays (deliveredAt : Option ℤ) (now : ℤ) : Option ℚ :=
  deliveredAt.map (fun d => ((Int.fdiv (now - d) 86400000 : ℤ) : ℚ))

/-- The Flits cashback fetch: runs only with a resolved customer and (env)
configuration; the `catch` resets all three figures to null.  Returns
(totalSpentCreditsRaw, totalSpentCredits, totalCredits) as local variables of
the builder. -/
def computeFlits (customerId : Option ℕ) (ext : Ext) :
    Option ℚ × Option ℚ × Option ℚ :=
  if truthyNat customerId && ext.flitsConfigured then
    match ext.flits with
    | .ok d =>
      let raw := d.totalSpentCredits
      let norm := raw.map (fun s => |s| / 100)
      (raw, norm, d.credits)
    | .error _ => (none, none, none)
  else (none, none, none)

/-- `active.id || null` (an empty id string collapses to null). -/
def jsStrOrNull : Option String → Option String
  | some s => if s = "" then none else some s
  | none => none

/-- `buildRefundContext(req, res, next)`: resolves customer, order, refund
history, ledger count, delivery date and cashback figures, then assembles
`req.ruleContext`.  `errorResp` are the early `res.status(...)` returns; the
function-level `catch` is the 500.  (The source's optional
`validateRefundRules` JSON-schema check is dead code — the variable is
initialised to `null` and never assigned — so it has no counterpart here.) -/
def buildRefundContext (req : Req) (ext : Ext) : BuildResult :=
  match req.tenant with
  | none => .errorResp 500 "Tenant not loaded"
  | some tenantId =>
    if ¬(truthyStr req.body.phone || truthyStr req.body.orderId) then
      .errorResp 400 "Provide phone or orderId for refund context"
    else
      match ext.loadRules with
      | .error _ => .errorResp 500 "Failed to build refund context"
      | .ok active =>
        let customerId0 : Option ℕ :=
          if truthyStr req.body.phone then
            match ext.customerSearch with
            | .ok c => c
            | .error _ => none
          else none
        match resolveOrderRes req.body ext customerId0 with
        | .error _ => .errorResp 500 "Failed to build refund context"
        | .ok (order, customerId) =>
          let orderTotal : Option ℚ := order.map (fun o => o.total_price)
          let requestedAmount : Option ℚ := req.body.amount
          let requestedPercent : Option ℚ :=
            if truthyNum orderTotal && truthyNum requestedAmount then
              some ((requestedAmount.getD 0) / (orderTotal.getD 0) * 100)
            else none
          let alreadyRefunded := computeAlreadyRefunded order ext
          let attemptsToday := computeAttemptsToday customerId ext
          let customerKey := computeCustomerKey req.body order
          match computeLifetime customerKey ext with
          | .error _ => .errorResp 500 "Failed to build refund context"
          | .ok lifetimeRefundCount =>
            let deliveredAt := computeDeliveredAt order
            let daysSinceDelivery := computeDays deliveredAt ext.now
            let flitsFigures := computeFlits customerId ext
            .ok
              { tenantId := tenantId
                ruleSetId := jsStrOrNull active.id
                rulesVersion := active.version
                rules := active.rules
                user := { id := req.userId, roles := req.userRoles }
                order := order.map (fun o =>
                  { id := o.id
                    customerId := customerId
                    total := o.total_price
                    paymentMethod :=
                      strLower (match o.payment_gateway_names.head? with
                        | some g => if g ≠ "" then g else o.processing_method.getD ""
                        | none => o.processing_method.getD "") })
                refund :=
                  { requestedAmount := requestedAmount
                    requestedPercent := requestedPercent }
                meta :=
                  { attemptsToday := attemptsToday
                    targetOrderAlreadyRefunded := alreadyRefunded
                    deliveredAt := deliveredAt
                    daysSinceDelivery := daysSinceDelivery
                    lifetimeRefundCount := some lifetimeRefundCount
                    customerKey := customerKey
                    totalSpentCredits := flitsFigures.2.1
                    totalSpentCreditsRaw := flitsFigures.1
                    totalCredits := some (jsAbsNum flitsFigures.2.2 / 100) }
                request := { lineItems := req.body.lineItems.getD [] }
                now := ext.now }

/-- `evaluateRefundRules(context)` — the pure decision evaluator: the eight
predicate blocks in source order, then the result record. -/
def evaluateRefundRules (ctx : DecisionContext) : Decision :=
  let s := stepSupervisor ctx (stepPayment ctx (stepDaily ctx (stepPercentCap ctx
    (stepAlreadyRefunded ctx (stepWindow ctx (stepLifetime ctx (stepCashback ctx initState)))))))
  { outcome := s.outcome
    reason := s.reason
    limits := s.limits
    matched := s.matched
    rulesVersion := ctx.rulesVersion
    ruleSetId := ctx.ruleSetId }

/-! ## RuleSet store (`models/refundRulesModel.js`)

The collection of `RefundRules` documents is a list; Mongo's partial unique
index over `(tenant, isActive:true)` is the invariant proved below, not an
assumption of the model.  `publishNewVersion` runs inside a transaction
(`startTransaction` … `commitTransaction` / `abortTransaction`): a failure
anywhere inside the transaction aborts it and leaves the collection exactly
as it was, which the model expresses with an explicit `fails` flag. -/

/-- One `RefundRules` document. -/
structure RuleSetDoc where
  tenant : Option ℕ := none
  name : String := "Refund Rules"
  version : ℕ := 1
  isActive : Bool := true
  createdBy : Option ℕ := none
  rules : Rules := {}
  deriving DecidableEq

/-- The Mongo filter `{ tenant: t, isActive: true }`. -/
def activePred (t : Option ℕ) (d : RuleSetDoc) : Bool :=
  d.isActive && decide (d.tenant = t)

/-- The documents matching `{ tenant: t, isActive: true }`. -/
def activeDocs (db : List RuleSetDoc) (t : Option ℕ) : List RuleSetDoc :=
  db.filter (activePred t)

/-- How many active rulesets tenant `t` has. -/
def activeCount (db : List RuleSetDoc) (t : Option ℕ) : ℕ :=
  (activeDocs db t).length

/-- The `updateMany({tenant, isActive:true}, {$set:{isActive:false}})` of the
publish transaction, applied to one document. -/
def deactivateFor (t : Option ℕ) (d : RuleSetDoc) : RuleSetDoc :=
  if d.tenant = t ∧ d.isActive then { d with isActive := false } else d

/-- The version picked by `findOne({tenant}).sort({version:-1})`:
the largest existing version for the tenant, if any document exists. -/
def latestVersion? (db : List RuleSetDoc) (t : Option ℕ) : Option ℕ :=
  ((db.filter (fun d => decide (d.tenant = t))).map (fun d => d.version)).max?

/-- `publishNewVersion(tenantId, rulesPayload, createdBy)` as a transition on
the document list.  `fails = true` models a failure inside the transaction:
`abortTransaction` restores the pre-transaction collection and no document is
returned.  On success: next version is `latest.version + 1` (or 1), every
active ruleset of the tenant is deactivated, and the new active document is
inserted — all in one indivisible step. -/
def publishNewVersion (db : List RuleSetDoc) (tenantId : Option ℕ)
    (rulesPayload : Rules) (createdBy : Option ℕ) (fails : Bool) :
    List RuleSetDoc × Option RuleSetDoc :=
  if fails then (db, none)
  else
    let nextVersion : ℕ :=
      match latestVersion? db tenantId with
      | some v => v + 1
      | none => 1
    let db1 := db.map (deactivateFor tenantId)
    let doc : RuleSetDoc :=
      { tenant := tenantId
        name := "Refund Rules"
        version := nextVersion
        isActive := true
        createdBy := createdBy
        rules := rulesPayload }
    (db1 ++ [doc], some doc)

/-- One publish call as data: tenant, payload, creator, whether the
transaction fails. -/
structure PubOp where
  tenant : Option ℕ
  payload : Rules
  createdBy : Option ℕ
  fails : Bool

/-- A sequence of `publishNewVersion` calls, run left to right. -/
def runPublishes (db : List RuleSetDoc) (ops : List PubOp) : List RuleSetDoc :=
  ops.foldl (fun d op => (publishNewVersion d op.tenant op.payload op.createdBy op.fails).1) db

/-! ## Refund ledger ring buffer -/

/-- `RefundStatSchema.methods.pushAttempt(entry, maxEntries = 25)`: push, then
`splice(0, length - maxEntries)` when over the bound (drop the oldest). -/
def pushAttempt (attempts : List α) (entry : α) (maxEntries : ℕ) : List α :=
  let l := attempts ++ [entry]
  if maxEntries < l.length then l.drop (l.length - maxEntries) else l

/-- The controller's ledger update (`refundsController.js`,
`$push: { attempts: { $each: [entry], $slice: -25 } }`): push, keep the last
`n`. -/
def pushSliceLast (attempts : List α) (entry : α) (n : ℕ) : List α :=
  let l := attempts ++ [entry]
  l.drop (l.length - n)

/-! ## Helper lemmas about the evaluator's predicate blocks -/

/-- The evaluator state reached just before the supervisor block: the first
seven predicate blocks applied in source order to the initial state. -/
def preSupervisorState (ctx : DecisionContext) : EvalState :=
  stepPayment ctx (stepDaily ctx (stepPercentCap ctx (stepAlreadyRefunded ctx
    (stepWindow ctx (stepLifetime ctx (stepCashback ctx initState))))))

theorem evaluateRefundRules_eq (ctx : DecisionContext) :
    evaluateRefundRules ctx =
      { outcome := (stepSupervisor ctx (preSupervisorState ctx)).outcome
        reason := (stepSupervisor ctx (preSupervisorState ctx)).reason
        limits := (stepSupervisor ctx (preSupervisorState ctx)).limits
        matched := (stepSupervisor ctx (preSupervisorState ctx)).matched
        rulesVersion := ctx.rulesVersion
        ruleSetId := ctx.ruleSetId } := rfl

theorem stepCashback_skip_of_deny (ctx : DecisionContext) (s : EvalState)
    (hd : s.outcome = .DENY) : stepCashback ctx s = s := by
  simp [stepCashback, hd]

theorem stepLifetime_skip_of_deny (ctx : DecisionContext) (s : EvalState)
    (hd : s.outcome = .DENY) : stepLifetime ctx s = s := by
  simp [stepLifetime, hd]

theorem stepWindow_skip_of_deny (ctx : DecisionContext) (s : EvalState)
    (hd : s.outcome = .DENY) : stepWindow ctx s = s := by
  simp [stepWindow, hd]

theorem stepPercentCap_skip_of_deny (ctx : DecisionContext) (s : EvalState)
    (hd : s.outcome = .DENY) : stepPercentCap ctx s = s := by
  simp [stepPercentCap, hd]

theorem stepDaily_skip_of_deny (ctx : DecisionContext) (s : EvalState)
    (hd : s.outcome = .DENY) : stepDaily ctx s = s := by
  simp [stepDaily, hd]

theorem stepPayment_skip_of_deny (ctx : DecisionContext) (s : EvalState)
    (hd : s.outcome = .DENY) : stepPayment ctx s = s := by
  simp [stepPayment, hd]

theorem stepSupervisor_skip_of_deny (ctx : DecisionContext) (s : EvalState)
    (hd : s.outcome = .DENY) : stepSupervisor ctx s = s := by
  simp [stepSupervisor, hd]

theorem stepAlreadyRefunded_outcome_of_deny (ctx : DecisionContext) (s : EvalState)
    (hd : s.outcome = .DENY) : (stepAlreadyRefunded ctx s).outcome = .DENY := by
  unfold stepAlreadyRefunded
  try dsimp only
  split <;> simp [hd]

/-- The already-refunded block unconditionally denies whenever both the rule
flag and the fact are set. -/
theorem stepAlreadyRefunded_fires (ctx : DecisionContext) (s : EvalState)
    (hb : ctx.rules.blockIfAlreadyRefunded = true)
    (hm : ctx.meta.targetOrderAlreadyRefunded = true) :
    (stepAlreadyRefunded ctx s).outcome = .DENY := by
  simp [stepAlreadyRefunded, hb, hm]

theorem stepCashback_outcome_cases (ctx : DecisionContext) (s : EvalState) :
    (stepCashback ctx s).outcome = s.outcome ∨ (stepCashback ctx s).outcome = .DENY := by
  unfold stepCashback
  try dsimp only
  repeat' split
  all_goals simp

theorem stepLifetime_outcome_cases (ctx : DecisionContext) (s : EvalState) :
    (stepLifetime ctx s).outcome = s.outcome ∨ (stepLifetime ctx s).outcome = .DENY := by
  unfold stepLifetime
  try dsimp only
  repeat' split
  all_goals simp

theorem stepWindow_outcome_cases (ctx : DecisionContext) (s : EvalState) :
    (stepWindow ctx s).outcome = s.outcome ∨ (stepWindow ctx s).outcome = .DENY := by
  unfold stepWindow
  try dsimp only
  repeat' split
  all_goals simp

theorem stepAlreadyRefunded_outcome_cases (ctx : DecisionContext) (s : EvalState) :
    (stepAlreadyRefunded ctx s).outcome = s.outcome ∨
      (stepAlreadyRefunded ctx s).outcome = .DENY := by
  unfold stepAlreadyRefunded
  try dsimp only
  split <;> simp

theorem stepPercentCap_outcome_cases (ctx : DecisionContext) (s : EvalState) :
    (stepPercentCap ctx s).outcome = s.outcome ∨ (stepPercentCap ctx s).outcome = .DENY := by
  unfold stepPercentCap
  try dsimp only
  repeat' split
  all_goals simp

theorem stepDaily_outcome_cases (ctx : DecisionContext) (s : EvalState) :
    (stepDaily ctx s).outcome = s.outcome ∨ (stepDaily ctx s).outcome = .DENY := by
  unfold stepDaily
  try dsimp only
  repeat' split
  all_goals simp

theorem stepPayment_outcome_cases (ctx : DecisionContext) (s : EvalState) :
    (stepPayment ctx s).outcome = s.outcome ∨ (stepPayment ctx s).outcome = .DENY := by
  unfold stepPayment
  try dsimp only
  repeat' split
  all_goals simp

/-- Before the supervisor block the outcome is ALLOW or DENY, never
REQUIRE_APPROVAL. -/
theorem preSupervisorState_outcome_cases (ctx : DecisionContext) :
    (preSupervisorState ctx).outcome = .ALLOW ∨ (preSupervisorState ctx).outcome = .DENY := by
  unfold preSupervisorState
  have h0 : (stepCashback ctx initState).outcome = .ALLOW ∨
      (stepCashback ctx initState).outcome = .DENY := by
    rcases stepCashback_outcome_cases ctx initState with h | h
    · exact Or.inl (h.trans rfl)
    · exact Or.inr h
  have h1 := stepLifetime_outcome_cases ctx (stepCashback ctx initState)
  have h2 := stepWindow_outcome_cases ctx
    (stepLifetime ctx (stepCashback ctx initState))
  have h3 := stepAlreadyRefunded_outcome_cases ctx
    (stepWindow ctx (stepLifetime ctx (stepCashback ctx initState)))
  have h4 := stepPercentCap_outcome_cases ctx
    (stepAlreadyRefunded ctx (stepWindow ctx (stepLifetime ctx (stepCashback ctx initState))))
  have h5 := stepDaily_outcome_cases ctx
    (stepPercentCap ctx (stepAlreadyRefunded ctx (stepWindow ctx
      (stepLifetime ctx (stepCashback ctx initState)))))
  have h6 := stepPayment_outcome_cases ctx
    (stepDaily ctx (stepPercentCap ctx (stepAlreadyRefunded ctx (stepWindow ctx
      (stepLifetime ctx (stepCashback ctx initState))))))
  rcases h6 with h6 | h6 <;> rcases h5 with h5 | h5 <;> rcases h4 with h4 | h4 <;>
    rcases h3 with h3 | h3 <;> rcases h2 with h2 | h2 <;> rcases h1 with h1 | h1 <;>
    rcases h0 with h0 | h0 <;> simp_all

theorem stepCashback_matched_cases (ctx : DecisionContext) (s : EvalState) (x : String)
    (h : x ∈ (stepCashback ctx s).matched) :
    x = "cashbackSpentThreshold" ∨ x ∈ s.matched := by
  unfold stepCashback at h
  try dsimp only at h
  repeat' split at h
  all_goals simp_all
  all_goals tauto

theorem stepLifetime_matched_cases (ctx : DecisionContext) (s : EvalState) (x : String)
    (h : x ∈ (stepLifetime ctx s).matched) :
    x = "maxLifetimeRefundCount" ∨ x ∈ s.matched := by
  unfold stepLifetime at h
  try dsimp only at h
  repeat' split at h
  all_goals simp_all
  all_goals tauto

theorem stepWindow_matched_cases (ctx : DecisionContext) (s : EvalState) (x : String)
    (h : x ∈ (stepWindow ctx s).matched) :
    x = "refundWindowDays" ∨ x ∈ s.matched := by
  unfold stepWindow at h
  try dsimp only at h
  repeat' split at h
  all_goals simp_all
  all_goals tauto

theorem stepAlreadyRefunded_matched_cases (ctx : DecisionContext) (s : EvalState) (x : String)
    (h : x ∈ (stepAlreadyRefunded ctx s).matched) :
    x = "blockIfAlreadyRefunded" ∨ x ∈ s.matched := by
  unfold stepAlreadyRefunded at h
  try dsimp only at h
  split at h
  all_goals simp_all
  all_goals tauto

theorem stepPercentCap_matched_cases (ctx : DecisionContext) (s : EvalState) (x : String)
    (h : x ∈ (stepPercentCap ctx s).matched) :
    x = "maxRefundPercent" ∨ x ∈ s.matched := by
  unfold stepPercentCap at h
  try dsimp only at h
  repeat' split at h
  all_goals simp_all
  all_goals tauto

theorem stepDaily_matched_cases (ctx : DecisionContext) (s : EvalState) (x : String)
    (h : x ∈ (stepDaily ctx s).matched) :
    x = "maxRefundsPerDay" ∨ x ∈ s.matched := by
  unfold stepDaily at h
  try dsimp only at h
  repeat' split at h
  all_goals simp_all
  all_goals tauto

theorem stepPayment_matched_cases (ctx : DecisionContext) (s : EvalState) (x : String)
    (h : x ∈ (stepPayment ctx s).matched) :
    x = "allowPaymentMethods" ∨ x ∈ s.matched := by
  unfold stepPayment at h
  try dsimp only at h
  repeat' split at h
  all_goals simp_all
  all_goals tauto

theorem stepSupervisor_matched_cases (ctx : DecisionContext) (s : EvalState) (x : String)
    (h : x ∈ (stepSupervisor ctx s).matched) :
    x = "requireSupervisorAbovePercent" ∨ x ∈ s.matched := by
  unfold stepSupervisor at h
  try dsimp only at h
  repeat' split at h
  all_goals simp_all
  all_goals tauto

/-! ## Claim C1 — evaluation order and DENY short-circuit -/

/-- A context on which the cashback block denies and the already-refunded
block is armed: exhibits the missing short-circuit of block 1. -/
def c1Ctx : DecisionContext :=
  { rules := { blockIfAlreadyRefunded := true }
    meta := { totalSpentCreditsRaw := some 40000
              totalSpentCredits := some 400
              targetOrderAlreadyRefunded := true } }

/-- The evaluator state of `c1Ctx` after the first three blocks (cashback,
lifetime, window), i.e. just before the already-refunded block. -/
def c1Pre : EvalState :=
  stepWindow c1Ctx (stepLifetime c1Ctx (stepCashback c1Ctx initState))

/-- C1 (counterexample): on `c1Ctx` the outcome is already DENY after the
cashback block, yet the subsequent DENY-capable already-refunded predicate
still runs: it appends `"blockIfAlreadyRefunded"` to `matched` and overwrites
the `reason` — contradicting "once the outcome has become DENY, no subsequent
DENY-capable predicate is evaluated". -/
theorem c1_short_circuit_counterexample :
    c1Pre.outcome = .DENY ∧
    c1Pre.matched = ["cashbackSpentThreshold"] ∧
    (stepAlreadyRefunded c1Ctx c1Pre).matched =
      ["cashbackSpentThreshold", "blockIfAlreadyRefunded"] ∧
    (stepAlreadyRefunded c1Ctx c1Pre).reason ≠ c1Pre.reason ∧
    (evaluateRefundRules c1Ctx).matched =
      ["cashbackSpentThreshold", "blockIfAlreadyRefunded"] ∧
    (evaluateRefundRules c1Ctx).reason = .alreadyRefunded := by
  decide

/-- C1 (amended): predicates run in the fixed source order (cashback,
lifetime cap, refund window, already-refunded, percent cap, daily cap,
payment allow-list, supervisor).  Once the outcome is DENY every later
DENY-capable predicate EXCEPT the already-refunded block is skipped
unchanged, and the supervisor predicate is also skipped; the already-refunded
block alone runs unconditionally (it can re-append its name and overwrite the
reason, though the outcome stays DENY). -/
theorem c1_order_and_short_circuit_amended (ctx : DecisionContext) (s : EvalState)
    (hd : s.outcome = .DENY) :
    evaluateRefundRules ctx =
      { outcome := (stepSupervisor ctx (preSupervisorState ctx)).outcome
        reason := (stepSupervisor ctx (preSupervisorState ctx)).reason
        limits := (stepSupervisor ctx (preSupervisorState ctx)).limits
        matched := (stepSupervisor ctx (preSupervisorState ctx)).matched
        rulesVersion := ctx.rulesVersion
        ruleSetId := ctx.ruleSetId } ∧
    stepLifetime ctx s = s ∧
    stepWindow ctx s = s ∧
    stepPercentCap ctx s = s ∧
    stepDaily ctx s = s ∧
    stepPayment ctx s = s ∧
    stepSupervisor ctx s = s ∧
    (stepAlreadyRefunded ctx s).outcome = .DENY :=
  ⟨evaluateRefundRules_eq ctx,
   stepLifetime_skip_of_deny ctx s hd,
   stepWindow_skip_of_deny ctx s hd,
   stepPercentCap_skip_of_deny ctx s hd,
   stepDaily_skip_of_deny ctx s hd,
   stepPayment_skip_of_deny ctx s hd,
   stepSupervisor_skip_of_deny ctx s hd,
   stepAlreadyRefunded_outcome_of_deny ctx s hd⟩

/-- A concrete evaluator state whose outcome is DENY (used by several
witnesses). -/
def denyState : EvalState := { outcome := .DENY }

theorem c1_order_and_short_circuit_amended_witness :
    denyState.outcome = .DENY ∧
    (evaluateRefundRules c1Ctx =
      { outcome := (stepSupervisor c1Ctx (preSupervisorState c1Ctx)).outcome
        reason := (stepSupervisor c1Ctx (preSupervisorState c1Ctx)).reason
        limits := (stepSupervisor c1Ctx (preSupervisorState c1Ctx)).limits
        matched := (stepSupervisor c1Ctx (preSupervisorState c1Ctx)).matched
        rulesVersion := c1Ctx.rulesVersion
        ruleSetId := c1Ctx.ruleSetId } ∧
    stepLifetime c1Ctx denyState = denyState ∧
    stepWindow c1Ctx denyState = denyState ∧
    stepPercentCap c1Ctx denyState = denyState ∧
    stepDaily c1Ctx denyState = denyState ∧
    stepPayment c1Ctx denyState = denyState ∧
    stepSupervisor c1Ctx denyState = denyState ∧
    (stepAlreadyRefunded c1Ctx denyState).outcome = .DENY) :=
  ⟨rfl, c1_order_and_short_circuit_amended c1Ctx denyState rfl⟩

/-! ## Claim C3 — percent-cap bypass for partial refunds -/

/-- C3: with a non-empty line-item list and `bypassPercentCapForPartials` not
explicitly false (the default is true), the percent-cap predicate never fires:
it leaves any state unchanged, and `"maxRefundPercent"` never appears in
`matched`, whatever `requestedPercent` is. -/
theorem c3_percent_cap_bypass (ctx : DecisionContext) (s : EvalState)
    (hitems : ctx.request.lineItems ≠ [])
    (hbypass : ctx.rules.bypassPercentCapForPartials ≠ some false) :
    "maxRefundPercent" ∉ (evaluateRefundRules ctx).matched ∧
    stepPercentCap ctx s = s := by
  have hp : 0 < ctx.request.lineItems.length := List.length_pos.mpr hitems
  have hskip : ∀ s0 : EvalState, stepPercentCap ctx s0 = s0 := by
    intro s0
    unfold stepPercentCap
    try dsimp only
    rw [if_neg]
    intro hcon
    exact hcon.1 ⟨hp, hbypass⟩
  refine ⟨?_, hskip s⟩
  intro hmem
  rw [evaluateRefundRules_eq] at hmem
  unfold preSupervisorState at hmem
  rw [hskip] at hmem
  rcases stepSupervisor_matched_cases _ _ _ hmem with h | h
  · exact absurd h (by decide)
  rcases stepPayment_matched_cases _ _ _ h with h | h
  · exact absurd h (by decide)
  rcases stepDaily_matched_cases _ _ _ h with h | h
  · exact absurd h (by decide)
  rcases stepAlreadyRefunded_matched_cases _ _ _ h with h | h
  · exact absurd h (by decide)
  rcases stepWindow_matched_cases _ _ _ h with h | h
  · exact absurd h (by decide)
  rcases stepLifetime_matched_cases _ _ _ h with h | h
  · exact absurd h (by decide)
  rcases stepCashback_matched_cases _ _ _ h with h | h
  · exact absurd h (by decide)
  · simp [initState] at h

/-- A partial-refund context requesting an enormous percentage. -/
def c3Ctx : DecisionContext :=
  { rules := { maxRefundPercent := some 30 }
    refund := { requestedPercent := some 100000 }
    request := { lineItems := [10] } }

theorem c3_percent_cap_bypass_witness :
    c3Ctx.request.lineItems ≠ [] ∧
    c3Ctx.rules.bypassPercentCapForPartials ≠ some false ∧
    ("maxRefundPercent" ∉ (evaluateRefundRules c3Ctx).matched ∧
      stepPercentCap c3Ctx denyState = denyState) := by
  refine ⟨by decide, by decide, ?_⟩
  exact c3_percent_cap_bypass c3Ctx denyState (by decide) (by decide)

/-! ## Claim C10 — no payment-method check without a resolved order -/

/-- C10: when the context has no resolved order, the payment-method predicate
leaves any state unchanged and `"allowPaymentMethods"` never appears in
`matched`, even with a non-empty allow-list. -/
theorem c10_payment_check_needs_order (ctx : DecisionContext) (s : EvalState)
    (hord : ctx.order = none) :
    "allowPaymentMethods" ∉ (evaluateRefundRules ctx).matched ∧
    stepPayment ctx s = s := by
  have hskip : ∀ s0 : EvalState, stepPayment ctx s0 = s0 := by
    intro s0
    simp [stepPayment, hord]
  refine ⟨?_, hskip s⟩
  intro hmem
  rw [evaluateRefundRules_eq] at hmem
  unfold preSupervisorState at hmem
  rw [hskip] at hmem
  rcases stepSupervisor_matched_cases _ _ _ hmem with h | h
  · exact absurd h (by decide)
  rcases stepDaily_matched_cases _ _ _ h with h | h
  · exact absurd h (by decide)
  rcases stepPercentCap_matched_cases _ _ _ h with h | h
  · exact absurd h (by decide)
  rcases stepAlreadyRefunded_matched_cases _ _ _ h with h | h
  · exact absurd h (by decide)
  rcases stepWindow_matched_cases _ _ _ h with h | h
  · exact absurd h (by decide)
  rcases stepLifetime_matched_cases _ _ _ h with h | h
  · exact absurd h (by decide)
  rcases stepCashback_matched_cases _ _ _ h with h | h
  · exact absurd h (by decide)
  · simp [initState] at h

/-- An order-less context with a non-empty allow-list and a disallowed-looking
payment situation. -/
def c10Ctx : DecisionContext :=
  { rules := { allowPaymentMethods := some ["card", "upi"] }
    order := none }

theorem c10_payment_check_needs_order_witness :
    c10Ctx.order = none ∧
    ("allowPaymentMethods" ∉ (evaluateRefundRules c10Ctx).matched ∧
      stepPayment c10Ctx denyState = denyState) :=
  ⟨rfl, c10_payment_check_needs_order c10Ctx denyState rfl⟩

/-! ## Claim C4 — supervisor-required threshold -/

/-- C4: when the outcome entering the supervisor block is not DENY and the
requested percent exceeds `requireSupervisorAbovePercent`: an actor without
the `super_admin` role gets REQUIRE_APPROVAL as the final outcome, an actor
with `super_admin` keeps ALLOW, and the supervisor block never touches a
state whose outcome is DENY. -/
theorem c4_supervisor_threshold (ctx : DecisionContext) (p t : ℚ) (s : EvalState)
    (hnd : (preSupervisorState ctx).outcome ≠ .DENY)
    (hp : ctx.refund.requestedPercent = some p)
    (ht : ctx.rules.requireSupervisorAbovePercent = some t)
    (hgt : p > t) :
    ("super_admin" ∉ ctx.user.roles →
      (evaluateRefundRules ctx).outcome = .REQUIRE_APPROVAL) ∧
    ("super_admin" ∈ ctx.user.roles →
      (evaluateRefundRules ctx).outcome = .ALLOW) ∧
    (s.outcome = .DENY → stepSupervisor ctx s = s) := by
  have hallow : (preSupervisorState ctx).outcome = .ALLOW := by
    rcases preSupervisorState_outcome_cases ctx with h | h
    · exact h
    · exact absurd h hnd
  refine ⟨?_, ?_, fun hd => stepSupervisor_skip_of_deny ctx s hd⟩
  · intro hrole
    rw [evaluateRefundRules_eq]
    simp [stepSupervisor, hallow, hp, ht, hgt, hrole]
  · intro hrole
    rw [evaluateRefundRules_eq]
    simp [stepSupervisor, hallow, hp, ht, hgt, hrole]

/-- Scenario C context: threshold 20%, request 25%, actor `refund_agent`. -/
def c4CtxAgent : DecisionContext :=
  { rules := { requireSupervisorAbovePercent := some 20 }
    refund := { requestedPercent := some 25 }
    user := { roles := ["refund_agent"] } }

theorem c4_supervisor_threshold_witness :
    (preSupervisorState c4CtxAgent).outcome ≠ .DENY ∧
    c4CtxAgent.refund.requestedPercent = some 25 ∧
    c4CtxAgent.rules.requireSupervisorAbovePercent = some 20 ∧
    (25 : ℚ) > 20 ∧
    (("super_admin" ∉ c4CtxAgent.user.roles →
        (evaluateRefundRules c4CtxAgent).outcome = .REQUIRE_APPROVAL) ∧
      ("super_admin" ∈ c4CtxAgent.user.roles →
        (evaluateRefundRules c4CtxAgent).outcome = .ALLOW) ∧
      (denyState.outcome = .DENY → stepSupervisor c4CtxAgent denyState = denyState)) := by
  refine ⟨by decide, rfl, rfl, by decide, ?_⟩
  exact c4_supervisor_threshold c4CtxAgent 25 20 denyState (by decide) rfl rfl (by decide)

/-! ## Claim C2 — one active ruleset per tenant -/

/-- The partial unique index over `(tenant, isActive: true)`: no two distinct
documents are simultaneously active for the same tenant. -/
def OneActivePerTenant (db : List RuleSetDoc) : Prop :=
  List.Pairwise
    (fun a b => ¬(a.isActive = true ∧ b.isActive = true ∧ a.tenant = b.tenant)) db

instance (db : List RuleSetDoc) : Decidable (OneActivePerTenant db) := by
  unfold OneActivePerTenant
  infer_instance

theorem oneActive_count_le_one (db : List RuleSetDoc)
    (h : OneActivePerTenant db) (t : Option ℕ) : activeCount db t ≤ 1 := by
  induction db with
  | nil => simp [activeCount, activeDocs]
  | cons d rest ih =>
    unfold OneActivePerTenant at h
    rw [List.pairwise_cons] at h
    unfold activeCount activeDocs
    rw [List.filter_cons]
    split
    · next hpred =>
      have hd : d.isActive = true ∧ d.tenant = t := by
        simpa [activePred] using hpred
      have hrest : rest.filter (activePred t) = [] := by
        rw [List.filter_eq_nil_iff]
        intro e he hact
        have he2 : e.isActive = true ∧ e.tenant = t := by
          simpa [activePred] using hact
        exact h.1 e he ⟨hd.1, he2.1, hd.2.trans he2.2.symm⟩
      simp [hrest]
    · exact ih h.2

theorem activeDocs_deactivate_self (db : List RuleSetDoc) (t : Option ℕ) :
    activeDocs (db.map (deactivateFor t)) t = [] := by
  induction db with
  | nil => rfl
  | cons d rest ih =>
    unfold activeDocs at ih ⊢
    rw [List.map_cons, List.filter_cons]
    split
    · next hcond =>
      exfalso
      unfold deactivateFor at hcond
      by_cases hd : d.tenant = t ∧ d.isActive
      · rw [if_pos hd] at hcond
        simp [activePred] at hcond
      · rw [if_neg hd] at hcond
        simp [activePred] at hcond
        exact hd ⟨hcond.2, hcond.1⟩
    · exact ih

theorem activeDocs_deactivate_other (db : List RuleSetDoc) (t t1 : Option ℕ)
    (hne : t1 ≠ t) :
    activeDocs (db.map (deactivateFor t)) t1 = activeDocs db t1 := by
  induction db with
  | nil => rfl
  | cons d rest ih =>
    unfold activeDocs at ih ⊢
    rw [List.map_cons, List.filter_cons, List.filter_cons]
    by_cases hd : d.tenant = t ∧ d.isActive
    · have h1 : activePred t1 (deactivateFor t d) = false := by
        unfold deactivateFor
        rw [if_pos hd]
        simp [activePred]
      have h2 : activePred t1 d = false := by
        have hdt : d.tenant ≠ t1 := by
          rw [hd.1]
          exact fun heq => hne heq.symm
        simp [activePred, hdt]
      rw [h1, h2]
      simpa using ih
    · have h1 : deactivateFor t d = d := by
        unfold deactivateFor
        rw [if_neg hd]
      rw [h1]
      split
      · rw [ih]
      · exact ih

theorem activeCount_publish_success (db : List RuleSetDoc) (t : Option ℕ)
    (p : Rules) (c : Option ℕ) :
    activeCount (publishNewVersion db t p c false).1 t = 1 := by
  unfold publishNewVersion activeCount activeDocs
  simp only [Bool.false_eq_true, if_false]
  try dsimp only
  rw [List.filter_append]
  have h1 := activeDocs_deactivate_self db t
  unfold activeDocs at h1
  rw [h1]
  simp [activePred]

theorem activeDocs_publish_other (db : List RuleSetDoc) (t : Option ℕ)
    (p : Rules) (c : Option ℕ) (t1 : Option ℕ) (hne : t1 ≠ t) :
    activeDocs (publishNewVersion db t p c false).1 t1 = activeDocs db t1 := by
  unfold publishNewVersion
  simp only [Bool.false_eq_true, if_false]
  try dsimp only
  unfold activeDocs
  rw [List.filter_append]
  have h2 := activeDocs_deactivate_other db t t1 hne
  unfold activeDocs at h2
  rw [h2]
  have h3 : t ≠ t1 := fun heq => hne heq.symm
  simp [activePred, h3]

theorem publish_preserves_le_one (db : List RuleSetDoc) (t1 tp : Option ℕ)
    (p : Rules) (c : Option ℕ) (f : Bool)
    (h : ∀ t2, activeCount db t2 ≤ 1) :
    activeCount (publishNewVersion db tp p c f).1 t1 ≤ 1 := by
  cases f
  · by_cases ht : t1 = tp
    · subst ht
      rw [activeCount_publish_success]
    · unfold activeCount
      rw [activeDocs_publish_other db tp p c t1 ht]
      exact h t1
  · simpa [publishNewVersion] using h t1

theorem runPublishes_cons (db : List RuleSetDoc) (op : PubOp) (ops : List PubOp) :
    runPublishes db (op :: ops) =
      runPublishes (publishNewVersion db op.tenant op.payload op.createdBy op.fails).1 ops :=
  rfl

theorem runPublishes_preserves_le_one (ops : List PubOp) (db : List RuleSetDoc)
    (h : ∀ t2, activeCount db t2 ≤ 1) (t1 : Option ℕ) :
    activeCount (runPublishes db ops) t1 ≤ 1 := by
  induction ops generalizing db with
  | nil => exact h t1
  | cons op rest ih =>
    rw [runPublishes_cons]
    exact ih _ (fun t2 => publish_preserves_le_one db t2 op.tenant op.payload op.createdBy op.fails h)

/-- C2: starting from any collection satisfying the unique-active index, any
sequence of (possibly failing) `publishNewVersion` transactions keeps at most
one active ruleset per tenant; a successful publish leaves the published
tenant with exactly one active ruleset and every other tenant untouched; a
failed publish rolls back to exactly the previous collection. -/
theorem c2_single_active_per_tenant (db : List RuleSetDoc) (ops : List PubOp)
    (t0 t : Option ℕ) (p : Rules) (c : Option ℕ)
    (hinv : OneActivePerTenant db) :
    activeCount (runPublishes db ops) t0 ≤ 1 ∧
    activeCount (publishNewVersion db t p c false).1 t = 1 ∧
    (t0 ≠ t → activeDocs (publishNewVersion db t p c false).1 t0 = activeDocs db t0) ∧
    (publishNewVersion db t p c true).1 = db :=
  ⟨runPublishes_preserves_le_one ops db (oneActive_count_le_one db hinv) t0,
   activeCount_publish_success db t p c,
   fun hne => activeDocs_publish_other db t p c t0 hne,
   rfl⟩

/-- A one-document collection (tenant 1 active) for the C2 witness. -/
def c2Db : List RuleSetDoc := [{ tenant := some 1, version := 1, isActive := true }]

/-- Publish twice for tenant 1 (second publish for the platform default), then
a failing publish. -/
def c2Ops : List PubOp :=
  [{ tenant := some 1, payload := {}, createdBy := none, fails := false },
   { tenant := none, payload := {}, createdBy := none, fails := false },
   { tenant := some 1, payload := {}, createdBy := none, fails := true }]

theorem c2_single_active_per_tenant_witness :
    OneActivePerTenant c2Db ∧
    (activeCount (runPublishes c2Db c2Ops) (some 2) ≤ 1 ∧
      activeCount (publishNewVersion c2Db (some 1) {} none false).1 (some 1) = 1 ∧
      (some 2 ≠ some 1 →
        activeDocs (publishNewVersion c2Db (some 1) {} none false).1 (some 2) =
          activeDocs c2Db (some 2)) ∧
      (publishNewVersion c2Db (some 1) {} none true).1 = c2Db) :=
  ⟨by decide, c2_single_active_per_tenant c2Db c2Ops (some 2) (some 1) {} none (by decide)⟩

/-! ## Claim C7 — monotonic version numbering -/

/-- The largest existing version for a tenant (0 when the tenant has no
documents at all). -/
def maxVersionFor (db : List RuleSetDoc) (t : Option ℕ) : ℕ :=
  ((db.filter (fun d => decide (d.tenant = t))).map (fun d => d.version)).foldr max 0

theorem le_foldr_max (l : List ℕ) (a : ℕ) (h : a ∈ l) : a ≤ l.foldr max 0 := by
  induction l with
  | nil => cases h
  | cons b rest ih =>
    rcases List.mem_cons.mp h with rfl | h2
    · exact le_max_left _ _
    · exact le_trans (ih h2) (le_max_right _ _)

theorem foldl_max_eq (as : List ℕ) (a : ℕ) : as.foldl max a = max a (as.foldr max 0) := by
  induction as generalizing a with
  | nil => simp
  | cons b bs ih =>
    rw [List.foldl_cons, List.foldr_cons, ih (max a b), max_assoc]

theorem max?_eq_foldr_of_ne_nil (l : List ℕ) (h : l ≠ []) :
    l.max? = some (l.foldr max 0) := by
  cases l with
  | nil => exact absurd rfl h
  | cons a as =>
    show some (as.foldl max a) = _
    rw [foldl_max_eq, List.foldr_cons]

/-- C7: a successful `publishNewVersion` inserts a document whose version is
exactly (max existing version for the tenant) + 1; in particular it is
strictly larger than every existing version for the tenant, and a tenant's
first publish gets version 1. -/
theorem c7_monotonic_versions (db : List RuleSetDoc) (t : Option ℕ)
    (p : Rules) (c : Option ℕ) (d : RuleSetDoc) :
    (publishNewVersion db t p c false).2.map (fun d0 => d0.version) =
      some (maxVersionFor db t + 1) ∧
    (d ∈ db → d.tenant = t → d.version < maxVersionFor db t + 1) ∧
    (db.filter (fun d0 => decide (d0.tenant = t)) = [] →
      (publishNewVersion db t p c false).2.map (fun d0 => d0.version) = some 1) := by
  have hmain : (publishNewVersion db t p c false).2.map (fun d0 => d0.version) =
      some (maxVersionFor db t + 1) := by
    unfold publishNewVersion latestVersion? maxVersionFor
    try dsimp only
    by_cases hl : (db.filter (fun d0 => decide (d0.tenant = t))).map (fun d0 => d0.version) = []
    · rw [hl]
      simp
    · rw [max?_eq_foldr_of_ne_nil _ hl]
      simp
  refine ⟨hmain, ?_, ?_⟩
  · intro hd hdt
    have hmem : d.version ∈
        ((db.filter (fun d0 => decide (d0.tenant = t))).map (fun d0 => d0.version)) := by
      refine List.mem_map.mpr ⟨d, ?_, rfl⟩
      refine List.mem_filter.mpr ⟨hd, by simp [hdt]⟩
    exact Nat.lt_succ_of_le (le_foldr_max _ _ hmem)
  · intro hfil
    rw [hmain]
    unfold maxVersionFor
    rw [hfil]
    rfl

/-- Two existing versions for tenant 1 (C7 witness data). -/
def c7Db : List RuleSetDoc :=
  [{ tenant := some 1, version := 1, isActive := false },
   { tenant := some 1, version := 2, isActive := true }]

theorem c7_monotonic_versions_witness :
    ((publishNewVersion c7Db (some 1) {} none false).2.map (fun d0 => d0.version) =
        some (maxVersionFor c7Db (some 1) + 1) ∧
      ({ tenant := some 1, version := 2, isActive := true : RuleSetDoc } ∈ c7Db →
        ({ tenant := some 1, version := 2, isActive := true : RuleSetDoc }).tenant = some 1 →
        ({ tenant := some 1, version := 2, isActive := true : RuleSetDoc }).version <
          maxVersionFor c7Db (some 1) + 1) ∧
      (c7Db.filter (fun d0 => decide (d0.tenant = some 1)) = [] →
        (publishNewVersion c7Db (some 1) {} none false).2.map (fun d0 => d0.version) =
          some 1)) ∧
    maxVersionFor c7Db (some 1) = 2 :=
  ⟨c7_monotonic_versions c7Db (some 1) {} none
      { tenant := some 1, version := 2, isActive := true },
   by decide⟩

/-! ## Claim C8 — attempts ring buffer keeps the most recent 25 -/

/-- The common inductive step of both ring-buffer updates: appending one
entry to the last-25 suffix of `xs` and keeping the last 25 again is keeping
the last 25 of `xs ++ [x]`. -/
theorem drop25_append_step {α : Type} (xs : List α) (x : α) :
    (xs.drop (xs.length - 25) ++ [x]).drop
        ((xs.drop (xs.length - 25) ++ [x]).length - 25) =
      (xs ++ [x]).drop ((xs ++ [x]).length - 25) := by
  simp only [List.length_append, List.length_drop, List.length_singleton]
  by_cases h25 : xs.length ≤ 25
  · have hz : xs.length - 25 = 0 := by omega
    rw [hz, List.drop_zero]
    have e0 : xs.length - 0 + 1 - 25 = xs.length + 1 - 25 := by omega
    rw [e0]
  · have e1 : xs.length - (xs.length - 25) + 1 - 25 = 1 := by omega
    have e2 : xs.length + 1 - 25 = (xs.length - 25) + 1 := by omega
    rw [e1, e2]
    rw [List.drop_append_of_le_length
      (by rw [List.length_drop]; omega : 1 ≤ (xs.drop (xs.length - 25)).length)]
    rw [List.drop_append_of_le_length
      (by omega : xs.length - 25 + 1 ≤ xs.length)]
    rw [List.drop_drop]

theorem ring25_foldl {α : Type} (es : List α) :
    es.foldl (fun a e => pushAttempt a e 25) [] = es.drop (es.length - 25) := by
  induction es using List.reverseRecOn with
  | nil => rfl
  | append_singleton xs x ih =>
    rw [List.foldl_append, List.foldl_cons, List.foldl_nil, ih]
    unfold pushAttempt
    try dsimp only
    by_cases hc : 25 < (xs.drop (xs.length - 25) ++ [x]).length
    · rw [if_pos hc]
      exact drop25_append_step xs x
    · rw [if_neg hc]
      have hlen : xs.length ≤ 24 := by
        rw [List.length_append, List.length_drop, List.length_singleton] at hc
        omega
      have hz : xs.length - 25 = 0 := by omega
      have hz2 : (xs ++ [x]).length - 25 = 0 := by
        rw [List.length_append, List.length_singleton]
        omega
      rw [hz, List.drop_zero, hz2, List.drop_zero]

theorem ring25_slice {α : Type} (es : List α) :
    es.foldl (fun a e => pushSliceLast a e 25) [] = es.drop (es.length - 25) := by
  induction es using List.reverseRecOn with
  | nil => rfl
  | append_singleton xs x ih =>
    rw [List.foldl_append, List.foldl_cons, List.foldl_nil, ih]
    unfold pushSliceLast
    try dsimp only
    exact drop25_append_step xs x

/-- C8: after more than 25 recorded attempts, both the model method
(`pushAttempt`) and the controller's `$push`/`$slice: -25` update leave
exactly the most recent 25 entries, in the original (chronological,
newest-last) order: the result is precisely `es.drop (es.length - 25)`. -/
theorem c8_ring_buffer {α : Type} (es : List α) (h : 25 < es.length) :
    es.foldl (fun a e => pushAttempt a e 25) [] = es.drop (es.length - 25) ∧
    (es.foldl (fun a e => pushAttempt a e 25) []).length = 25 ∧
    es.foldl (fun a e => pushSliceLast a e 25) [] = es.drop (es.length - 25) := by
  refine ⟨ring25_foldl es, ?_, ring25_slice es⟩
  rw [ring25_foldl es, List.length_drop]
  omega

theorem c8_ring_buffer_witness :
    25 < (List.range 26).length ∧
    ((List.range 26).foldl (fun a e => pushAttempt a e 25) [] =
        (List.range 26).drop ((List.range 26).length - 25) ∧
      ((List.range 26).foldl (fun a e => pushAttempt a e 25) []).length = 25 ∧
      (List.range 26).foldl (fun a e => pushSliceLast a e 25) [] =
        (List.range 26).drop ((List.range 26).length - 25)) :=
  ⟨by decide, c8_ring_buffer (List.range 26) (by decide)⟩

/-! ## Builder-level claims (C5, C6, C9) -/

/-- Any context with `blockIfAlreadyRefunded` set and the already-refunded
fact true evaluates to DENY (the block is unconditional and every later block
preserves DENY). -/
theorem evaluateRefundRules_deny_of_alreadyRefunded (ctx : DecisionContext)
    (hb : ctx.rules.blockIfAlreadyRefunded = true)
    (hm : ctx.meta.targetOrderAlreadyRefunded = true) :
    (evaluateRefundRules ctx).outcome = .DENY := by
  rw [evaluateRefundRules_eq]
  unfold preSupervisorState
  have hd : (stepAlreadyRefunded ctx
      (stepWindow ctx (stepLifetime ctx (stepCashback ctx initState)))).outcome = .DENY :=
    stepAlreadyRefunded_fires ctx _ hb hm
  rw [stepPercentCap_skip_of_deny ctx _ hd, stepDaily_skip_of_deny ctx _ hd,
    stepPayment_skip_of_deny ctx _ hd, stepSupervisor_skip_of_deny ctx _ hd]
  exact hd

/-- Did the build succeed? -/
def BuildResult.isOkB : BuildResult → Bool
  | .ok _ => true
  | .errorResp _ _ => false

/-- The built context's `order` slot (when the build succeeded). -/
def BuildResult.orderField : BuildResult → Option (Option COrder)
  | .ok c => some c.order
  | .errorResp _ _ => none

/-- The built context's `meta` bundle (when the build succeeded). -/
def BuildResult.metaOf : BuildResult → Option Meta
  | .ok c => some c.meta
  | .errorResp _ _ => none

/-- The evaluator's outcome on the built context (when the build succeeded). -/
def BuildResult.evalOutcome : BuildResult → Option Outcome
  | .ok c => some (evaluateRefundRules c).outcome
  | .errorResp _ _ => none

/-- C5: when the refund-history lookup for the resolved target order fails,
the build still succeeds, `meta.targetOrderAlreadyRefunded` defaults to true
(fail closed), and — with `blockIfAlreadyRefunded` set in the active rules —
the built context evaluates to DENY.  Moreover whenever the daily
attempt-count lookup fails (for any resolved customer), the computed
`attemptsToday` defaults to `Number.MAX_SAFE_INTEGER`. -/
theorem c5_fail_closed_defaults (req : Req) (ext : Ext) (tid : String)
    (active : LoadedRules) (o : SOrder) (stc cid : Option ℕ)
    (htenant : req.tenant = some tid)
    (horderid : truthyStr req.body.orderId = true)
    (hrules : ext.loadRules = .ok active)
    (hblock : active.rules.blockIfAlreadyRefunded = true)
    (horder : ext.orderById = .ok (some o))
    (hid : o.id ≠ 0)
    (hrefunds : ext.refundsForTarget = .error ())
    (hstat : ext.statTotalCount = .ok stc) :
    (buildRefundContext req ext).isOkB = true ∧
    (buildRefundContext req ext).metaOf.map Meta.targetOrderAlreadyRefunded = some true ∧
    (buildRefundContext req ext).evalOutcome = some .DENY ∧
    (truthyNat cid = true → ext.todayOrders = .error () →
      computeAttemptsToday cid ext = maxSafeInteger) := by
  have har : computeAlreadyRefunded (some o) ext = true := by
    simp [computeAlreadyRefunded, hid, hrefunds]
  have hbuild : ∃ c, buildRefundContext req ext = .ok c ∧ c.rules = active.rules ∧
      c.meta.targetOrderAlreadyRefunded = true := by
    unfold buildRefundContext
    rw [htenant]
    simp only [horderid, hrules, resolveOrderRes, horder, Bool.or_true, not_true,
      if_false, if_true]
    rcases hck : computeCustomerKey req.body (some o) with _ | k <;>
      simp only [hck, computeLifetime, hstat] <;>
      exact ⟨_, rfl, rfl, har⟩
  rcases hbuild with ⟨c, hc, hcr, hcm⟩
  rw [hc]
  refine ⟨rfl, ?_, ?_, ?_⟩
  · simp [BuildResult.metaOf, hcm]
  · simp only [BuildResult.evalOutcome]
    rw [evaluateRefundRules_deny_of_alreadyRefunded c (by rw [hcr]; exact hblock) hcm]
  · intro hcid hfailed
    simp [computeAttemptsToday, hcid, hfailed]

/-- Request for the C5 witness: explicit order id. -/
def c5Req : Req := { tenant := some "t1", body := { orderId := some "999" } }

/-- External world for the C5 witness: rules with the already-refunded block
armed, order resolved, refund-history and daily-count lookups both failing. -/
def c5Ext : Ext :=
  { loadRules := .ok { rules := { blockIfAlreadyRefunded := true } }
    orderById := .ok (some { id := 999, total_price := 100 })
    refundsForTarget := .error ()
    todayOrders := .error ()
    statTotalCount := .ok none }

theorem c5_fail_closed_defaults_witness :
    c5Ext.refundsForTarget = .error () ∧
    c5Ext.todayOrders = .error () ∧
    ((buildRefundContext c5Req c5Ext).isOkB = true ∧
      (buildRefundContext c5Req c5Ext).metaOf.map Meta.targetOrderAlreadyRefunded =
        some true ∧
      (buildRefundContext c5Req c5Ext).evalOutcome = some .DENY ∧
      (truthyNat (some 7) = true → c5Ext.todayOrders = .error () →
        computeAttemptsToday (some 7) c5Ext = maxSafeInteger)) :=
  ⟨rfl, rfl,
   c5_fail_closed_defaults c5Req c5Ext "t1"
     { rules := { blockIfAlreadyRefunded := true } }
     { id := 999, total_price := 100 } none (some 7)
     rfl (by decide) rfl rfl rfl (by decide) rfl rfl⟩

/-- Request that resolves no order: phone only. -/
def c6Req : Req := { tenant := some "t1", body := { phone := some "123" } }

/-- External world in which the customer search finds nobody (hence no order
can be resolved at all). -/
def c6Ext : Ext :=
  { loadRules := .ok {}
    customerSearch := .ok none
    statTotalCount := .ok none }

/-- C6 (counterexample): on a request whose target order cannot be resolved,
`buildRefundContext` does NOT fail with a 404-style OrderNotFound: it
succeeds, produces a DecisionContext with `order = null`, and that context is
evaluated. -/
theorem c6_order_required_counterexample :
    (buildRefundContext c6Req c6Ext).isOkB = true ∧
    (buildRefundContext c6Req c6Ext).orderField = some none ∧
    (buildRefundContext c6Req c6Ext).evalOutcome.isSome = true := by
  decide

/-- Request/world for the thrown-order-fetch half of the C6 amendment. -/
def c6Req2 : Req := { tenant := some "t2", body := { orderId := some "42" } }

/-- External world whose order-by-id fetch rejects. -/
def c6Ext2 : Ext := { loadRules := .ok {}, orderById := .error () }

/-- C6 (amended): `buildRefundContext` does not require the target order.
When no order can be resolved (no order id given and the customer search
comes back empty) the build succeeds with `order = null` in the context; when
the explicit order fetch throws, the build fails with the generic 500
"Failed to build refund context" response — not a 404 OrderNotFound. -/
theorem c6_order_optional_amended (req : Req) (ext : Ext) (tid : String)
    (active : LoadedRules) (stc : Option ℕ) (req2 : Req) (ext2 : Ext) (tid2 : String)
    (htenant : req.tenant = some tid)
    (hphone : truthyStr req.body.phone = true)
    (hnoid : truthyStr req.body.orderId = false)
    (hsearch : ext.customerSearch = .ok none)
    (hrules : ext.loadRules = .ok active)
    (hstat : ext.statTotalCount = .ok stc)
    (h2tenant : req2.tenant = some tid2)
    (h2orderid : truthyStr req2.body.orderId = true)
    (h2fail : ext2.orderById = .error ()) :
    (buildRefundContext req ext).isOkB = true ∧
    (buildRefundContext req ext).orderField = some none ∧
    buildRefundContext req2 ext2 = .errorResp 500 "Failed to build refund context" := by
  have h500 : buildRefundContext req2 ext2 =
      .errorResp 500 "Failed to build refund context" := by
    unfold buildRefundContext
    rw [h2tenant]
    simp only [h2orderid, Bool.or_true, not_true, if_false]
    cases hlr : ext2.loadRules with
    | error e => rfl
    | ok active2 => simp only [resolveOrderRes, h2orderid, if_true, h2fail]
  have hbuild : ∃ c, buildRefundContext req ext = .ok c ∧ c.order = none := by
    unfold buildRefundContext
    rw [htenant]
    simp only [hphone, hnoid, hsearch, hrules, resolveOrderRes, truthyNat,
      Bool.true_or, not_true, if_false, if_true, Bool.false_eq_true]
    simp only [computeCustomerKey, hphone, if_true, computeLifetime, hstat]
    exact ⟨_, rfl, rfl⟩
  rcases hbuild with ⟨c, hc, hco⟩
  rw [hc]
  exact ⟨rfl, by simp [BuildResult.orderField, hco], h500⟩

theorem c6_order_optional_amended_witness :
    truthyStr c6Req.body.phone = true ∧
    c6Ext.customerSearch = .ok none ∧
    c6Ext2.orderById = .error () ∧
    ((buildRefundContext c6Req c6Ext).isOkB = true ∧
      (buildRefundContext c6Req c6Ext).orderField = some none ∧
      buildRefundContext c6Req2 c6Ext2 =
        .errorResp 500 "Failed to build refund context") :=
  ⟨by decide, rfl, rfl,
   c6_order_optional_amended c6Req c6Ext "t1" {} none c6Req2 c6Ext2 "t2"
     rfl (by decide) (by decide) rfl rfl rfl rfl (by decide) rfl⟩

/-- Request for the C9 scenario: phone resolves to a customer. -/
def c9Req : Req := { tenant := some "t1", body := { phone := some "123" } }

/-- External world for C9: loyalty service configured but its lookup fails. -/
def c9Ext : Ext :=
  { loadRules := .ok {}
    customerSearch := .ok (some 5)
    latestOrder := .ok none
    flitsConfigured := true
    flits := .error ()
    statTotalCount := .ok none }

/-- C9 (code bug): with the Flits loyalty lookup failing, the build does not
fail and the `catch` leaves all three cashback figures null — but the meta
assembly then computes `Math.abs(null)/100`, which is 0 under JS coercion, so
`meta.totalCredits` comes out as the number 0 instead of null
(`totalSpentCredits` and `totalSpentCreditsRaw` do stay null). -/
theorem c9_flits_failure_totalCredits_zero :
    (buildRefundContext c9Req c9Ext).isOkB = true ∧
    (buildRefundContext c9Req c9Ext).metaOf.map
        (fun m => (m.totalSpentCredits, m.totalSpentCreditsRaw, m.totalCredits)) =
      some (none, none, some 0) ∧
    computeFlits (some 5) c9Ext = (none, none, none) ∧
    jsAbsNum none / 100 = (0 : ℚ) := by
  have h2 : (buildRefundContext c9Req c9Ext).metaOf.map
      (fun m => (m.totalSpentCredits, m.totalSpentCreditsRaw, m.totalCredits)) =
      some (none, none, some ((0 : ℚ) / 100)) := rfl
  refine ⟨rfl, ?_, rfl, by simp [jsAbsNum]⟩
  rw [h2, zero_div]

end Refunds
